import Mathlib

/-!
Verification of the narwhals series backend-adapter core: a shallow
embedding of `narwhals/_polars/series.py`, `narwhals/_pandas_like/series.py`
and `narwhals/exceptions.py`, together with theorems settling the frozen
claims about the spec.

Series contents are modelled as Lean lists; a nullable element is
`Option Int` with `none` standing for the engine's null.  Backend versions
are lists of naturals compared the way Python compares tuples
(lexicographically, a strict prefix being smaller).
-/

set_option autoImplicit false

namespace Narwhals

/-- Python tuple comparison `a < b` on version tuples: lexicographic,
a strict prefix is smaller. Models expressions such as
`self._backend_version < (0, 20, 6)` in the source. -/
def tupLt : List Nat → List Nat → Bool
  | [], [] => false
  | [], _ :: _ => true
  | _ :: _, [] => false
  | a :: xs, b :: ys => if a < b then true else if b < a then false else tupLt xs ys

/-- The unified error taxonomy of the adapter layer.  `invalidOperation`
embeds `narwhals.exceptions.InvalidOperationError`; `notImplemented` is the
`NotImplementedError` the version gates raise (the spec's
UnsupportedByVersion); `shapeMismatch` and `crossEngine` are the comparand
aligner failures; `attributeError` is Python's `AttributeError`;
`nativeTypeError` stands for an engine-raised `TypeError` that the adapter
does not translate. -/
inductive NwError where
  | invalidOperation
  | notImplemented
  | shapeMismatch
  | crossEngine
  | attributeError
  | nativeTypeError
deriving DecidableEq, Repr

/-! ## Native polars sort (engine contract)

Polars `Series.sort(descending, nulls_last)` sorts the non-null values and
places all nulls together, before the values when `nulls_last=False`
(the engine default) and after them when `nulls_last=True`.  Versions
before 0.20.6 lack the `nulls_last` parameter and behave like
`nulls_last=False`. -/

/-- Insert into a list kept in descending order. -/
def insertDesc (x : Int) : List Int → List Int
  | [] => [x]
  | y :: ys => if y ≤ x then x :: y :: ys else y :: insertDesc x ys

/-- Insert into a list kept in ascending order. -/
def insertAsc (x : Int) : List Int → List Int
  | [] => [x]
  | y :: ys => if x ≤ y then x :: y :: ys else y :: insertAsc x ys

/-- Sort the non-null values with the requested direction. -/
def sortVals (descending : Bool) : List Int → List Int
  | [] => []
  | x :: xs => if descending then insertDesc x (sortVals descending xs)
               else insertAsc x (sortVals descending xs)

/-- Number of nulls in a series. -/
def nullCount (xs : List (Option Int)) : Nat :=
  (xs.filter Option.isNone).length

/-- Native polars sort: non-null values sorted, the block of nulls placed
according to `nullsLast`. -/
def nativeSort (xs : List (Option Int)) (descending nullsLast : Bool) :
    List (Option Int) :=
  let nn := (sortVals descending (xs.filterMap id)).map some
  let nulls : List (Option Int) := List.replicate (nullCount xs) none
  if nullsLast then nn ++ nulls else nulls ++ nn

/-- `PolarsSeries.sort`: pre-0.20.6 the adapter calls the native sort
without `nulls_last` (engine default: nulls first) and, when `nulls_last`
is requested, concatenates the non-null elements with the null elements;
from 0.20.6 on it forwards `nulls_last` to the engine. -/
def PolarsSeries.sort (backendVersion : List Nat) (xs : List (Option Int))
    (descending nullsLast : Bool) : List (Option Int) :=
  if tupLt backendVersion [0, 20, 6] then
    let result := nativeSort xs descending false
    if nullsLast then
      result.filter (fun x => !x.isNone) ++ result.filter (fun x => x.isNone)
    else result
  else
    nativeSort xs descending nullsLast

/-- Decidable check that all nulls of a series sit strictly at its end. -/
def nullsAtEnd (xs : List (Option Int)) : Bool :=
  (xs.dropWhile (fun x => !x.isNone)).all (fun x => x.isNone)

theorem filter_some_map_some (l : List Int) :
    (l.map some).filter (fun x => !x.isNone) = l.map some := by
  induction l with
  | nil => rfl
  | cons x xs ih => simp [List.filter, ih, Option.isNone]

theorem filter_none_map_some (l : List Int) :
    (l.map some).filter (fun x => x.isNone) = [] := by
  induction l with
  | nil => rfl
  | cons x xs ih => simp [List.filter, ih, Option.isNone]

theorem filter_some_replicate (k : Nat) :
    (List.replicate k (none : Option Int)).filter (fun x => !x.isNone) = [] := by
  induction k with
  | zero => rfl
  | succ n ih => simp [List.replicate, List.filter, ih, Option.isNone]

theorem filter_none_replicate (k : Nat) :
    (List.replicate k (none : Option Int)).filter (fun x => x.isNone)
      = List.replicate k none := by
  induction k with
  | zero => rfl
  | succ n ih => simp [List.replicate, List.filter, ih, Option.isNone]

theorem nullsAtEnd_map_some_append (l : List Int) (k : Nat) :
    nullsAtEnd (l.map some ++ List.replicate k none) = true := by
  induction l with
  | nil =>
    induction k with
    | zero => rfl
    | succ n ih => simp [nullsAtEnd, List.replicate, List.dropWhile]
  | cons x xs ih =>
    rw [nullsAtEnd] at ih ⊢
    simp [List.dropWhile]

theorem sort_pre_branch (v : List Nat) (hv : tupLt v [0, 20, 6] = true)
    (xs : List (Option Int)) :
    PolarsSeries.sort v xs true true
      = (sortVals true (xs.filterMap id)).map some
          ++ List.replicate (nullCount xs) none := by
  simp only [PolarsSeries.sort, hv, if_pos, nativeSort]
  simp [List.filter_append, filter_some_map_some, filter_none_map_some,
    filter_some_replicate, filter_none_replicate]

theorem sort_post_branch (v : List Nat) (hv : tupLt v [0, 20, 6] = false)
    (xs : List (Option Int)) :
    PolarsSeries.sort v xs true true
      = (sortVals true (xs.filterMap id)).map some
          ++ List.replicate (nullCount xs) none := by
  simp [PolarsSeries.sort, hv, nativeSort]

/-- C1: on every series containing nulls and every backend version,
`sort(descending=True, nulls_last=True)` puts all nulls strictly at the
end, and the pre-0.20.6 branch (native sort then concatenation of non-null
and null parts) produces exactly the same series as the post-0.20.6 branch
(native sort with `nulls_last` forwarded). -/
theorem sort_nulls_last_equiv (xs : List (Option Int)) (_hnull : none ∈ xs) :
    (∀ v : List Nat, nullsAtEnd (PolarsSeries.sort v xs true true) = true) ∧
    (∀ v₁ v₂ : List Nat, tupLt v₁ [0, 20, 6] = true →
      tupLt v₂ [0, 20, 6] = false →
      PolarsSeries.sort v₁ xs true true = PolarsSeries.sort v₂ xs true true) := by
  refine ⟨fun v => ?_, fun v₁ v₂ h₁ h₂ => ?_⟩
  · rcases hv : tupLt v [0, 20, 6] with _ | _
    · rw [sort_post_branch v hv xs]; exact nullsAtEnd_map_some_append _ _
    · rw [sort_pre_branch v hv xs]; exact nullsAtEnd_map_some_append _ _
  · rw [sort_pre_branch v₁ h₁ xs, sort_post_branch v₂ h₂ xs]

/-- Witness for C1 at the concrete series `[some 1, none, some 2]`. -/
theorem sort_nulls_last_equiv_witness :
    none ∈ [some 1, none, some (2 : Int)] ∧
    ((∀ v : List Nat,
        nullsAtEnd (PolarsSeries.sort v [some 1, none, some 2] true true) = true) ∧
     (∀ v₁ v₂ : List Nat, tupLt v₁ [0, 20, 6] = true →
        tupLt v₂ [0, 20, 6] = false →
        PolarsSeries.sort v₁ [some 1, none, some 2] true true
          = PolarsSeries.sort v₂ [some 1, none, some 2] true true)) :=
  ⟨by decide, sort_nulls_last_equiv [some 1, none, some 2] (by decide)⟩

/-! ## Version gating (`replace_strict`, `ewm_mean`)

Both operations require polars >= 1.0: the adapter compares the stored
backend version with the tuple `(1,)` and raises `NotImplementedError`
below the threshold, otherwise calls the native method. -/

/-- First value paired with `x` in an association list. -/
def lookupPair (x : Int) : List (Int × Int) → Option Int
  | [] => none
  | p :: ps => if p.1 = x then some p.2 else lookupPair x ps

/-- Native polars `replace_strict`: map each element through the
`old -> new` association. -/
def nativeReplaceStrict (xs old new : List Int) : List Int :=
  xs.map (fun x => (lookupPair x (old.zip new)).getD x)

/-- `PolarsSeries.replace_strict`: gate on `backend_version < (1,)`, then
forward to the native method. -/
def PolarsSeries.replace_strict (backendVersion : List Nat)
    (xs old new : List Int) : Except NwError (List Int) :=
  if tupLt backendVersion [1] then .error .notImplemented
  else .ok (nativeReplaceStrict xs old new)

/-- One step of an exponentially weighted mean. -/
def ewmStep (alpha acc x : ℚ) : ℚ := (1 - alpha) * acc + alpha * x

/-- Running accumulation of the exponentially weighted mean. -/
def ewmGo (alpha acc : ℚ) : List ℚ → List ℚ
  | [] => []
  | x :: xs => ewmStep alpha acc x :: ewmGo alpha (ewmStep alpha acc x) xs

/-- Native polars `ewm_mean` (unadjusted form, driven by `alpha`). -/
def nativeEwmMean (alpha : ℚ) : List ℚ → List ℚ
  | [] => []
  | x :: xs => x :: ewmGo alpha x xs

/-- `PolarsSeries.ewm_mean`: gate on `backend_version < (1,)`, then forward
to the native method. -/
def PolarsSeries.ewm_mean (backendVersion : List Nat) (alpha : ℚ)
    (xs : List ℚ) : Except NwError (List ℚ) :=
  if tupLt backendVersion [1] then .error .notImplemented
  else .ok (nativeEwmMean alpha xs)

/-- C2: every operation gated on polars >= 1.0 (`replace_strict`,
`ewm_mean`) raises the version error (`NotImplementedError`, the spec's
UnsupportedByVersion) exactly when the stored backend version is below
`(1,)`, and returns the native result, not a version error, at or above
the threshold. -/
theorem version_gate_replace_strict_ewm_mean (v : List Nat) :
    (tupLt v [1] = true →
      (∀ xs old new : List Int,
        PolarsSeries.replace_strict v xs old new = .error .notImplemented) ∧
      (∀ (alpha : ℚ) (xs : List ℚ),
        PolarsSeries.ewm_mean v alpha xs = .error .notImplemented)) ∧
    (tupLt v [1] = false →
      (∀ xs old new : List Int,
        PolarsSeries.replace_strict v xs old new
          = .ok (nativeReplaceStrict xs old new)) ∧
      (∀ (alpha : ℚ) (xs : List ℚ),
        PolarsSeries.ewm_mean v alpha xs = .ok (nativeEwmMean alpha xs))) := by
  constructor
  · intro h
    exact ⟨fun xs old new => by simp [PolarsSeries.replace_strict, h],
           fun alpha xs => by simp [PolarsSeries.ewm_mean, h]⟩
  · intro h
    exact ⟨fun xs old new => by simp [PolarsSeries.replace_strict, h],
           fun alpha xs => by simp [PolarsSeries.ewm_mean, h]⟩

/-- Witness for C2: version `(0, 9, 9)` is below the gate and raises;
version `(1, 0, 0)` is not and succeeds. -/
theorem version_gate_replace_strict_ewm_mean_witness :
    PolarsSeries.replace_strict [0, 9, 9] [5] [5] [7] = .error .notImplemented ∧
    PolarsSeries.replace_strict [1, 0, 0] [5] [5] [7] = .ok [7] := by
  constructor
  · exact ((version_gate_replace_strict_ewm_mean [0, 9, 9]).1 (by decide)).1 [5] [5] [7]
  · rw [((version_gate_replace_strict_ewm_mean [1, 0, 0]).2 (by decide)).1 [5] [5] [7]]
    rfl

/-! ## Comparand alignment for binary operations

The pandas adapter routes every binary dunder through
`validate_column_comparand`, the polars adapter through `extract_native`;
both live in utility modules (`narwhals/_pandas_like/utils.py`,
`narwhals/_polars/utils.py`) that are not part of the given sources. -/

/-- The right-hand operand of a binary operation. -/
inductive Operand where
  | scalar (v : Int)
  | sameEngine (xs : List Int)
  | foreignEngine (xs : List Int)
deriving DecidableEq, Repr

/-- A validated operand ready for the native call. -/
inductive NativeOperand where
  | scalar (v : Int)
  | series (xs : List Int)
deriving DecidableEq, Repr

/-- Modelled from the spec: the Comparand Aligner
(`validate_column_comparand` in `narwhals/_pandas_like/utils.py` and
`extract_native` in `narwhals/_polars/utils.py` are absent from the given
sources).  Spec section 4.2: a scalar passes through unchanged; a
same-engine series of matching length passes through its native object; a
same-engine series of length 1 is broadcast; a foreign-engine series fails
with CrossEngineOperand; any other shape disagreement fails with
ShapeMismatch, before any native binary call. -/
def alignComparand (selfLen : Nat) (other : Operand) :
    Except NwError NativeOperand :=
  match other with
  | .scalar v => .ok (.scalar v)
  | .sameEngine xs =>
      if xs.length = selfLen then .ok (.series xs)
      else if xs.length = 1 then
        .ok (.series (List.replicate selfLen (xs.getD 0 0)))
      else .error .shapeMismatch
  | .foreignEngine _ => .error .crossEngine

/-- A pandas-adapter binary dunder (`__add__`, `__lt__`, `__and__`, ...):
align the comparand first, then apply the native binary operation. -/
def PandasSeries.binOp (nativeOp : List Int → NativeOperand → List Int)
    (xs : List Int) (other : Operand) : Except NwError (List Int) :=
  match alignComparand xs.length other with
  | .error e => .error e
  | .ok o => .ok (nativeOp xs o)

/-- A polars-adapter binary dunder: extract the native operand (modelled
by the same aligner), then apply the native binary operation. -/
def PolarsSeries.binOp (nativeOp : List Int → NativeOperand → List Int)
    (xs : List Int) (other : Operand) : Except NwError (List Int) :=
  match alignComparand xs.length other with
  | .error e => .error e
  | .ok o => .ok (nativeOp xs o)

/-- C3: for two same-engine series of differing lengths, neither of length
1, every binary operation — whatever native operation it would invoke —
raises ShapeMismatch on both engine adapters, so no native binary call is
made. -/
theorem binop_shape_mismatch (xs ys : List Int)
    (hne : xs.length ≠ ys.length) (_hxs : xs.length ≠ 1) (hys : ys.length ≠ 1) :
    ∀ nativeOp nativeOp₂ : List Int → NativeOperand → List Int,
      PandasSeries.binOp nativeOp xs (.sameEngine ys) = .error .shapeMismatch ∧
      PolarsSeries.binOp nativeOp₂ xs (.sameEngine ys) = .error .shapeMismatch := by
  intro nativeOp nativeOp₂
  have h1 : ¬ ys.length = xs.length := fun h => hne h.symm
  have halign : alignComparand xs.length (.sameEngine ys)
      = .error .shapeMismatch := by
    simp [alignComparand, h1, hys]
  constructor
  · simp [PandasSeries.binOp, halign]
  · simp [PolarsSeries.binOp, halign]

/-- Witness for C3 at lengths 3 and 5. -/
theorem binop_shape_mismatch_witness :
    PandasSeries.binOp (fun xs _ => xs) [1, 2, 3] (.sameEngine [1, 2, 3, 4, 5])
        = .error .shapeMismatch ∧
    PolarsSeries.binOp (fun xs _ => xs) [1, 2, 3] (.sameEngine [1, 2, 3, 4, 5])
        = .error .shapeMismatch :=
  binop_shape_mismatch [1, 2, 3] [1, 2, 3, 4, 5]
    (by decide) (by decide) (by decide) (fun xs _ => xs) (fun xs _ => xs)

/-! ## `median` and the InvalidOperation check -/

/-- The narwhals logical dtypes relevant to the claims. -/
inductive NwDType where
  | int64
  | float64
  | boolean
  | string
  | categorical
  | datetime
deriving DecidableEq, Repr

/-- `DType.is_numeric`: the integer and float dtypes. -/
def NwDType.isNumeric : NwDType → Bool
  | .int64 => true
  | .float64 => true
  | _ => false

/-- Median of the values of a series (the engines ignore nulls; we model
the non-null values directly): middle element of the sorted values, or the
mean of the two middle elements at even length. -/
def nativeMedian (xs : List ℚ) : Option ℚ :=
  let s := xs.foldr (fun x acc => acc.orderedInsert (· ≤ ·) x) []
  let n := s.length
  if n = 0 then none
  else if n % 2 = 1 then some (s.getD (n / 2) 0)
  else some ((s.getD (n / 2 - 1) 0 + s.getD (n / 2) 0) / 2)

/-- `PolarsSeries.median`: raise `InvalidOperationError` when the dtype is
not numeric, otherwise return the native median. -/
def PolarsSeries.median (dtype : NwDType) (xs : List ℚ) :
    Except NwError (Option ℚ) :=
  if !dtype.isNumeric then .error .invalidOperation
  else .ok (nativeMedian xs)

/-- The native pandas `median`: raises a `TypeError` of its own on
non-numeric data, computes the median otherwise. -/
def nativePandasMedian (dtype : NwDType) (xs : List ℚ) :
    Except NwError (Option ℚ) :=
  if !dtype.isNumeric then .error .nativeTypeError
  else .ok (nativeMedian xs)

/-- `PandasSeries.median`: delegates to the native series with no dtype
check of its own — whatever the engine does is passed through unchanged. -/
def PandasSeries.median (dtype : NwDType) (xs : List ℚ) :
    Except NwError (Option ℚ) :=
  nativePandasMedian dtype xs

/-- C4 counterexample: on the pandas adapter, `median` on a non-numeric
(string) series does not raise `InvalidOperationError` — the adapter has no
dtype check and the native error passes through untranslated. -/
theorem median_pandas_no_invalid_operation_counterexample :
    PandasSeries.median .string [] ≠ .error .invalidOperation := by
  simp [PandasSeries.median, nativePandasMedian, NwDType.isNumeric]

/-- C4 amended: on the polars adapter, `median` raises
`InvalidOperationError` exactly on non-numeric dtypes and returns the
native median on numeric dtypes; the pandas adapter never raises
`InvalidOperationError` from `median`, delegating to the engine
unchecked. -/
theorem median_invalid_operation (dtype : NwDType) (xs : List ℚ) :
    (dtype.isNumeric = false →
      PolarsSeries.median dtype xs = .error .invalidOperation) ∧
    (dtype.isNumeric = true →
      PolarsSeries.median dtype xs = .ok (nativeMedian xs)) ∧
    PandasSeries.median dtype xs ≠ .error .invalidOperation := by
  refine ⟨fun h => ?_, fun h => ?_, ?_⟩
  · simp [PolarsSeries.median, h]
  · simp [PolarsSeries.median, h]
  · cases dtype <;>
      simp [PandasSeries.median, nativePandasMedian, NwDType.isNumeric]

/-- Witness for C4 amended at a string series and an int series. -/
theorem median_invalid_operation_witness :
    (NwDType.isNumeric .string = false ∧
      PolarsSeries.median .string [] = .error .invalidOperation) ∧
    (NwDType.isNumeric .int64 = true ∧
      PolarsSeries.median .int64 [1, 2, 3] = .ok (nativeMedian [1, 2, 3])) :=
  ⟨⟨by decide, (median_invalid_operation .string []).1 (by decide)⟩,
   ⟨by decide, (median_invalid_operation .int64 [1, 2, 3]).2.1 (by decide)⟩⟩

/-! ## `is_nan` on the pandas adapter

A pandas value is either a float value, the float NaN, or the missing
value NA.  On an extension-array dtype the adapter computes
`(ser != ser).fillna(False)`; element-wise `x != x` is null-propagating
(`NA` gives `NA`, NaN gives `True`, a value gives `False`).  On a plain
(numpy) dtype it computes `ser.isna()`, and for a numpy float series the
only missing value is NaN itself. -/

/-- A pandas element: a (rational-modelled) float value, NaN, or NA. -/
inductive PElem where
  | fval (x : ℚ)
  | nan
  | na
deriving DecidableEq, Repr

/-- Element-wise `x != x` with pandas null propagation. -/
def selfNeq : PElem → Option Bool
  | .fval _ => some false
  | .nan => some true
  | .na => none

/-- Element-wise `isna`: True at NaN and NA. -/
def isnaElem : PElem → Bool
  | .fval _ => false
  | .nan => true
  | .na => true

/-- `PandasSeries.is_nan`: on an extension-array dtype,
`(ser != ser).fillna(False)`; otherwise `ser.isna()`. -/
def PandasSeries.is_nan (extensionDtype : Bool) (xs : List PElem) :
    List Bool :=
  if extensionDtype then xs.map (fun e => (selfNeq e).getD false)
  else xs.map isnaElem

/-- C7: on a (non-float) extension dtype, `is_nan` is the null-safe
equality-based check — an element is flagged exactly when it is NaN, and
nulls come out False; on a plain float series it marks exactly the NaN
positions, so `Series([1.0, NaN, 3.0]).is_nan()` is
`[False, True, False]`. -/
theorem is_nan_classification (xs : List PElem) :
    (∀ i : Nat, i < xs.length →
      (PandasSeries.is_nan true xs).getD i false
        = ((xs.getD i .na) = .nan)) ∧
    PandasSeries.is_nan false [.fval 1, .nan, .fval 3]
      = [false, true, false] := by
  constructor
  · intro i hi
    induction xs generalizing i with
    | nil => simp at hi
    | cons e es ih =>
      cases i with
      | zero => cases e <;> simp [PandasSeries.is_nan, selfNeq]
      | succ n =>
        have hn : n < es.length := by simpa using hi
        simpa [PandasSeries.is_nan] using ih n hn
  · rfl

/-- Witness for C7 at the extension series `[fval 1, nan, na]`, index 1. -/
theorem is_nan_classification_witness :
    (1 < ([.fval 1, .nan, .na] : List PElem).length) ∧
    (PandasSeries.is_nan true [.fval 1, .nan, .na]).getD 1 false
      = (([.fval 1, .nan, .na] : List PElem).getD 1 .na = .nan) :=
  ⟨by decide, (is_nan_classification [.fval 1, .nan, .na]).1 1 (by decide)⟩

/-! ## Series name normalization -/

/-- A pandas series name may be any Python object; the adapter applies
`str(...)` to it.  We model string and integer names. -/
inductive PyName where
  | pystr (s : String)
  | pyint (n : Int)
deriving DecidableEq, Repr

/-- Python `str(...)` on a name object. -/
def pyNameStr : PyName → String
  | .pystr s => s
  | .pyint n => toString n

/-- `PandasSeries.__init__` name normalization:
`str(series.name) if series.name is not None else ""`. -/
def PandasSeries.initName (seriesName : Option PyName) : String :=
  match seriesName with
  | some v => pyNameStr v
  | none => ""

/-- A native polars series always carries a string name (an unnamed
series has name `""`); the adapter's `name` property returns it. -/
def PolarsSeries.nameProp (nativeName : String) : String := nativeName

/-- C9: the adapter name is never absent — when the native name is `None`
the pandas adapter stores the empty string, otherwise it stores
`str(native name)`; the polars adapter returns the native series name,
which is always a string. -/
theorem name_never_absent (n : Option PyName) :
    (n = none → PandasSeries.initName n = "") ∧
    (∀ v : PyName, n = some v → PandasSeries.initName n = pyNameStr v) ∧
    (∀ s : String, PolarsSeries.nameProp s = s) := by
  refine ⟨fun h => ?_, fun v h => ?_, fun s => rfl⟩
  · subst h; rfl
  · subst h; rfl

/-- Witness for C9 at `None` and at the integer name `7`. -/
theorem name_never_absent_witness :
    PandasSeries.initName none = "" ∧
    PandasSeries.initName (some (.pyint 7)) = pyNameStr (.pyint 7) :=
  ⟨(name_never_absent none).1 rfl,
   (name_never_absent (some (.pyint 7))).2.1 (.pyint 7) rfl⟩

/-! ## Dynamic forwarding and result classification

Python does not enforce the annotation `pl.Series` on the wrapper's slot,
so the wrapper's native field holds an arbitrary native value; the
classification in `_from_native_object` is a runtime `isinstance` check. -/

/-- A native polars runtime value: a series, a dataframe, or a scalar. -/
inductive NativeValue where
  | series (xs : List Int) (nm : String)
  | frame (cols : List (String × List Int))
  | scalar (n : Int)
deriving DecidableEq, Repr

/-- The polars series adapter: one native slot (dynamically typed), the
backend version and the narwhals version tag. -/
structure PolarsSeriesW where
  nativeObject : NativeValue
  backendVersion : List Nat
  version : Nat
deriving DecidableEq, Repr

/-- The sibling dataframe adapter. -/
structure PolarsDataFrameW where
  nativeObject : NativeValue
  backendVersion : List Nat
  version : Nat
deriving DecidableEq, Repr

/-- What a forwarded call hands back to the caller: an adapter series, an
adapter dataframe, or the raw native value. -/
inductive Wrapped where
  | series (s : PolarsSeriesW)
  | frame (f : PolarsDataFrameW)
  | raw (v : NativeValue)
deriving DecidableEq, Repr

/-- `PolarsSeries._from_native_series`: wrap in a new adapter with the
same backend version and version. -/
def fromNativeSeries (self : PolarsSeriesW) (v : NativeValue) :
    PolarsSeriesW :=
  ⟨v, self.backendVersion, self.version⟩

/-- `PolarsSeries._from_native_object`: `isinstance(pl.Series)` wraps as a
series adapter, `isinstance(pl.DataFrame)` wraps as the dataframe adapter,
anything else is returned unchanged as a scalar. -/
def fromNativeObject (self : PolarsSeriesW) (v : NativeValue) : Wrapped :=
  match v with
  | .series xs nm => .series (fromNativeSeries self (.series xs nm))
  | .frame cols => .frame ⟨.frame cols, self.backendVersion, self.version⟩
  | .scalar n => .raw (.scalar n)

/-- `PolarsSeries.__getattr__`: the reserved sentinel name `as_py` raises
`AttributeError`; any other attribute returns a forwarder that calls the
native method and classifies the result via `_from_native_object`.
`nativeResult` stands for the value the native call produced. -/
def getattrForward (self : PolarsSeriesW) (attr : String)
    (nativeResult : NativeValue) : Except NwError Wrapped :=
  if attr = "as_py" then .error .attributeError
  else .ok (fromNativeObject self nativeResult)

/-- The datetime namespace proxy forwarder: the returned Python object is
always `self._series._from_native_series(native result)` — a series
adapter — whatever the native result's shape. -/
def dtNamespaceForward (self : PolarsSeriesW) (nativeResult : NativeValue) :
    Wrapped :=
  .series (fromNativeSeries self nativeResult)

/-- The string namespace proxy forwarder (same body as the datetime one). -/
def strNamespaceForward (self : PolarsSeriesW) (nativeResult : NativeValue) :
    Wrapped :=
  .series (fromNativeSeries self nativeResult)

/-- The categorical namespace proxy forwarder (same body again). -/
def catNamespaceForward (self : PolarsSeriesW) (nativeResult : NativeValue) :
    Wrapped :=
  .series (fromNativeSeries self nativeResult)

/-- C5 counterexample: a namespace-proxy method whose native result is the
plain scalar `5` does **not** come back unwrapped — the datetime proxy
wraps it as a series adapter. -/
theorem namespace_forward_scalar_counterexample :
    dtNamespaceForward ⟨.series [1, 2] "x", [1, 0, 0], 1⟩ (.scalar 5)
      ≠ .raw (.scalar 5) := by
  decide

/-- C5 amended: the top-level `__getattr__` forwarder classifies the
native result by runtime shape — a native series is wrapped as a series
adapter with the same backend version and version, a native dataframe as
the sibling dataframe adapter, and a scalar is returned unchanged — while
the namespace proxies (datetime, string, categorical) wrap every native
result as a series adapter regardless of its shape. -/
theorem forwarder_classification (self : PolarsSeriesW) (v : NativeValue) :
    (∀ xs nm, v = .series xs nm →
      fromNativeObject self v
        = .series ⟨v, self.backendVersion, self.version⟩) ∧
    (∀ cols, v = .frame cols →
      fromNativeObject self v
        = .frame ⟨v, self.backendVersion, self.version⟩) ∧
    (∀ n, v = .scalar n → fromNativeObject self v = .raw v) ∧
    (dtNamespaceForward self v
        = .series ⟨v, self.backendVersion, self.version⟩ ∧
     strNamespaceForward self v
        = .series ⟨v, self.backendVersion, self.version⟩ ∧
     catNamespaceForward self v
        = .series ⟨v, self.backendVersion, self.version⟩) := by
  refine ⟨fun xs nm h => ?_, fun cols h => ?_, fun n h => ?_, rfl, rfl, rfl⟩
  · subst h; rfl
  · subst h; rfl
  · subst h; rfl

/-- Witness for C5 amended at a concrete adapter and a native series
result. -/
theorem forwarder_classification_witness :
    fromNativeObject ⟨.series [1, 2] "x", [1, 0, 0], 1⟩ (.series [3] "y")
      = .series ⟨.series [3] "y", [1, 0, 0], 1⟩ :=
  (forwarder_classification ⟨.series [1, 2] "x", [1, 0, 0], 1⟩
    (.series [3] "y")).1 [3] "y" rfl

/-- C8: `__getattr__` rejects the reserved sentinel attribute `as_py` with
`AttributeError`, and forwards every other attribute name to the native
object, classifying the result. -/
theorem getattr_as_py_guard (self : PolarsSeriesW) (attr : String)
    (nativeResult : NativeValue) :
    (attr = "as_py" →
      getattrForward self attr nativeResult = .error .attributeError) ∧
    (attr ≠ "as_py" →
      getattrForward self attr nativeResult
        = .ok (fromNativeObject self nativeResult)) := by
  refine ⟨fun h => ?_, fun h => ?_⟩
  · simp [getattrForward, h]
  · simp [getattrForward, h]

/-- Witness for C8 at `as_py` and at the ordinary attribute `to_list`. -/
theorem getattr_as_py_guard_witness :
    getattrForward ⟨.series [1] "x", [1, 0, 0], 1⟩ "as_py" (.scalar 0)
      = .error .attributeError ∧
    getattrForward ⟨.series [1] "x", [1, 0, 0], 1⟩ "to_list" (.scalar 0)
      = .ok (fromNativeObject ⟨.series [1] "x", [1, 0, 0], 1⟩ (.scalar 0)) :=
  ⟨(getattr_as_py_guard ⟨.series [1] "x", [1, 0, 0], 1⟩ "as_py" (.scalar 0)).1
      rfl,
   (getattr_as_py_guard ⟨.series [1] "x", [1, 0, 0], 1⟩ "to_list"
      (.scalar 0)).2 (by decide)⟩

/-! ## `value_counts` and its version branches

The native polars `value_counts` groups the distinct values with their
occurrence counts (in order of first appearance, sorted by count
descending when `sort=True`).  Before 1.0 it has no `name`/`normalize`
parameters and the count column is always `"count"`; the adapter then
rebuilds the post-1.0 output with a `select`.  From 1.0 on the adapter
forwards `name` and `normalize` to the engine. -/

/-- A two-column dataframe as produced by `value_counts`: the key column
(named after the series) and the count/proportion column. -/
structure VCFrame where
  keyName : String
  valName : String
  rows : List (String × ℚ)
deriving DecidableEq, Repr

/-- Occurrences of `x` in `xs`. -/
def countOcc (x : String) (xs : List String) : Nat :=
  (xs.filter (fun y => y = x)).length

/-- Distinct values in order of first appearance. -/
def uniqueInOrder (xs : List String) : List String :=
  xs.foldl (fun acc y => if y ∈ acc then acc else acc ++ [y]) []

/-- The unsorted `value_counts` rows. -/
def baseCounts (xs : List String) : List (String × ℚ) :=
  (uniqueInOrder xs).map (fun v => (v, (countOcc v xs : ℚ)))

/-- Stable insertion into rows kept in descending count order. -/
def insertByCount (p : String × ℚ) : List (String × ℚ) → List (String × ℚ)
  | [] => [p]
  | q :: qs => if q.2 ≤ p.2 then p :: q :: qs else q :: insertByCount p qs

/-- Stable sort of rows by count, descending. -/
def sortRowsDesc : List (String × ℚ) → List (String × ℚ)
  | [] => []
  | p :: ps => insertByCount p (sortRowsDesc ps)

/-- Rows of the native `value_counts`, sorted when requested. -/
def vcRows (xs : List String) (sort : Bool) : List (String × ℚ) :=
  if sort then sortRowsDesc (baseCounts xs) else baseCounts xs

/-- `pl.sum("count")`. -/
def sumCounts (rows : List (String × ℚ)) : ℚ :=
  (rows.map Prod.snd).sum

/-- `pl.col("count") / pl.sum("count")`. -/
def normalizeRows (rows : List (String × ℚ)) : List (String × ℚ) :=
  rows.map (fun p => (p.1, p.2 / sumCounts rows))

/-- Python `name or default`: `None` **and the empty string** both fall
back to the default. -/
def pyOrStr (name : Option String) (d : String) : String :=
  match name with
  | some s => if s = "" then d else s
  | none => d

/-- Native `value_counts` before polars 1.0: no `name`/`normalize`
parameters, count column named `"count"`. -/
def nativeValueCountsOld (seriesName : String) (xs : List String)
    (sort : Bool) (_parallel : Bool) : VCFrame :=
  ⟨seriesName, "count", vcRows xs sort⟩

/-- Native `value_counts` from polars 1.0 on: the value column is named
`name` when given (whatever string that is), else `"proportion"` under
`normalize` and `"count"` otherwise; counts are divided by their sum under
`normalize`. -/
def nativeValueCountsNew (seriesName : String) (xs : List String)
    (sort _parallel : Bool) (name : Option String) (normalize : Bool) :
    VCFrame :=
  ⟨seriesName, name.getD (if normalize then "proportion" else "count"),
   if normalize then normalizeRows (vcRows xs sort) else vcRows xs sort⟩

/-- `PolarsSeries.value_counts`: below 1.0, call the old native
`value_counts` and rebuild the value column with a `select`, naming it
`name or ("proportion" if normalize else "count")`; from 1.0 on forward
everything to the engine. -/
def PolarsSeries.value_counts (backendVersion : List Nat)
    (seriesName : String) (xs : List String) (sort parallel : Bool)
    (name : Option String) (normalize : Bool) : VCFrame :=
  if tupLt backendVersion [1, 0, 0] then
    let valueName := pyOrStr name (if normalize then "proportion" else "count")
    let result := nativeValueCountsOld seriesName xs sort parallel
    ⟨result.keyName, valueName,
     if normalize then normalizeRows result.rows else result.rows⟩
  else
    nativeValueCountsNew seriesName xs sort parallel name normalize

/-- C6 counterexample: with the explicit empty-string column name
`name=""` (and `normalize=False`), the pre-1.0 branch falls back to
`"count"` because of Python's truthiness in `name or ...`, while the
post-1.0 branch hands the empty name to the engine — the two branches
disagree. -/
theorem value_counts_empty_name_counterexample :
    PolarsSeries.value_counts [0, 20, 0] "x" ["a"] true false (some "") false
      ≠ PolarsSeries.value_counts [1, 0, 0] "x" ["a"] true false (some "") false := by
  decide

/-- C6 amended: for every `name` that is `None` or non-empty, and every
combination of `sort`, `parallel` and `normalize`, the pre-1.0 branch of
`value_counts` produces exactly the table the post-1.0 branch produces
(same column names, values and row order); in particular
`Series(["a","b","a"]).value_counts(sort=True, normalize=False,
name=None)` yields the rows `("a", 2)` and `("b", 1)` in descending count
order on both branches.  (With `name=""` the branches differ, see the
counterexample.) -/
theorem value_counts_branch_equiv (v₁ v₂ : List Nat) (seriesName : String)
    (xs : List String) (sort parallel : Bool) (name : Option String)
    (normalize : Bool) (h₁ : tupLt v₁ [1, 0, 0] = true)
    (h₂ : tupLt v₂ [1, 0, 0] = false)
    (hname : ∀ s : String, name = some s → s ≠ "") :
    PolarsSeries.value_counts v₁ seriesName xs sort parallel name normalize
      = PolarsSeries.value_counts v₂ seriesName xs sort parallel name normalize
    ∧ PolarsSeries.value_counts v₂ "x" ["a", "b", "a"] true false none false
      = ⟨"x", "count", [("a", 2), ("b", 1)]⟩ := by
  have hpy : pyOrStr name (if normalize then "proportion" else "count")
      = name.getD (if normalize then "proportion" else "count") := by
    cases name with
    | none => rfl
    | some s =>
      have hs : ¬ s = "" := hname s rfl
      simp [pyOrStr, hs]
  constructor
  · simp [PolarsSeries.value_counts, h₁, h₂, nativeValueCountsOld,
      nativeValueCountsNew, hpy]
  · simp only [PolarsSeries.value_counts, h₂]
    decide

/-- Witness for C6 amended: versions `(0, 20, 0)` and `(1, 0, 0)`,
`name=None`, on the series `["a", "b", "a"]`. -/
theorem value_counts_branch_equiv_witness :
    tupLt [0, 20, 0] [1, 0, 0] = true ∧ tupLt [1, 0, 0] [1, 0, 0] = false ∧
    (PolarsSeries.value_counts [0, 20, 0] "x" ["a", "b", "a"] true false
        none false
      = PolarsSeries.value_counts [1, 0, 0] "x" ["a", "b", "a"] true false
        none false
    ∧ PolarsSeries.value_counts [1, 0, 0] "x" ["a", "b", "a"] true false
        none false
      = ⟨"x", "count", [("a", 2), ("b", 1)]⟩) :=
  ⟨by decide, by decide,
   value_counts_branch_equiv [0, 20, 0] [1, 0, 0] "x" ["a", "b", "a"]
     true false none false (by decide) (by decide)
     (fun s h => by simp at h)⟩

/-! ## `scatter` and non-mutation of the receiver

`scatter` clones the native series, mutates the clone in place, and wraps
the clone.  To talk about mutation we model the native store explicitly: a
heap of native series, adapters holding a reference into it. -/

/-- The store of live native series. -/
abbrev Heap := List (List Int)

/-- A polars series adapter as a reference into the heap. -/
structure PolarsSeriesRef where
  ref : Nat
  backendVersion : List Nat
  version : Nat
deriving DecidableEq, Repr

/-- Functional content of native `Series.scatter`: set position
`indices[k]` to `values[k]`. -/
def scatterList (xs : List Int) (indices : List Nat) (values : List Int) :
    List Int :=
  (indices.zip values).foldl (fun acc p => acc.set p.1 p.2) xs

/-- `Series.clone`: allocate a fresh native series with the same data,
returning the new heap and the fresh reference. -/
def cloneAlloc (h : Heap) (r : Nat) : Heap × Nat :=
  (h ++ [h.getD r []], h.length)

/-- Native in-place `Series.scatter` on the heap entry `r`. -/
def scatterInPlace (h : Heap) (r : Nat) (indices : List Nat)
    (values : List Int) : Heap :=
  h.set r (scatterList (h.getD r []) indices values)

/-- `PolarsSeries.scatter`: clone, mutate the clone in place, wrap the
clone in a new adapter with the same backend version and version. -/
def PolarsSeries.scatterOp (h : Heap) (self : PolarsSeriesRef)
    (indices : List Nat) (values : List Int) : Heap × PolarsSeriesRef :=
  let c := cloneAlloc h self.ref
  (scatterInPlace c.1 c.2 indices values,
   ⟨c.2, self.backendVersion, self.version⟩)

theorem getD_append_left {α : Type} (l r : List α) (i : Nat) (d : α)
    (h : i < l.length) : (l ++ r).getD i d = l.getD i d := by
  induction l generalizing i with
  | nil => simp at h
  | cons x xs ih =>
    cases i with
    | zero => rfl
    | succ n => exact ih n (by simpa using h)

theorem getD_set_ne {α : Type} (l : List α) (i j : Nat) (a d : α)
    (h : i ≠ j) : (l.set i a).getD j d = l.getD j d := by
  induction l generalizing i j with
  | nil => rfl
  | cons x xs ih =>
    cases i with
    | zero =>
      cases j with
      | zero => exact absurd rfl h
      | succ m => rfl
    | succ n =>
      cases j with
      | zero => rfl
      | succ m => exact ih n m (fun hnm => h (by rw [hnm]))

theorem getD_set_self {α : Type} (l : List α) (i : Nat) (a d : α)
    (h : i < l.length) : (l.set i a).getD i d = a := by
  induction l generalizing i with
  | nil => simp at h
  | cons x xs ih =>
    cases i with
    | zero => rfl
    | succ n => exact ih n (by simpa using h)

theorem getD_append_singleton {α : Type} (l : List α) (a d : α) :
    (l ++ [a]).getD l.length d = a := by
  induction l with
  | nil => rfl
  | cons x xs ih => simp

/-- C10: `scatter` never mutates the receiver — after the call the
receiver's heap entry holds exactly the elements it held before, while the
returned adapter is a fresh reference (distinct from the receiver's)
whose entry is the scattered copy of the receiver's data, carrying the
same backend version and version. -/
theorem scatter_leaves_receiver_unchanged (h : Heap)
    (self : PolarsSeriesRef) (indices : List Nat) (values : List Int)
    (href : self.ref < h.length) :
    ((PolarsSeries.scatterOp h self indices values).1).getD self.ref []
        = h.getD self.ref [] ∧
    (PolarsSeries.scatterOp h self indices values).2.ref ≠ self.ref ∧
    ((PolarsSeries.scatterOp h self indices values).1).getD
        (PolarsSeries.scatterOp h self indices values).2.ref []
      = scatterList (h.getD self.ref []) indices values ∧
    (PolarsSeries.scatterOp h self indices values).2.backendVersion
        = self.backendVersion ∧
    (PolarsSeries.scatterOp h self indices values).2.version
        = self.version := by
  have hne : h.length ≠ self.ref := fun he => absurd he.symm (Nat.ne_of_lt href)
  have hcopy : (h ++ [h.getD self.ref []]).getD h.length []
      = h.getD self.ref [] := getD_append_singleton h _ []
  refine ⟨?_, hne, ?_, rfl, rfl⟩
  · show ((h ++ [h.getD self.ref []]).set h.length _).getD self.ref [] = _
    rw [getD_set_ne _ _ _ _ _ hne, getD_append_left _ _ _ _ href]
  · show ((h ++ [h.getD self.ref []]).set h.length
        (scatterList ((h ++ [h.getD self.ref []]).getD h.length [])
          indices values)).getD h.length []
      = scatterList (h.getD self.ref []) indices values
    rw [hcopy, getD_set_self]
    simp

/-- Witness for C10 on a two-entry heap. -/
theorem scatter_leaves_receiver_unchanged_witness :
    (0 < ([[1, 2, 3], [9]] : Heap).length) ∧
    (((PolarsSeries.scatterOp [[1, 2, 3], [9]] ⟨0, [1, 0, 0], 1⟩ [1] [7]).1).getD 0 []
        = ([[1, 2, 3], [9]] : Heap).getD 0 [] ∧
      (PolarsSeries.scatterOp [[1, 2, 3], [9]] ⟨0, [1, 0, 0], 1⟩ [1] [7]).2.ref ≠ 0 ∧
      ((PolarsSeries.scatterOp [[1, 2, 3], [9]] ⟨0, [1, 0, 0], 1⟩ [1] [7]).1).getD
          (PolarsSeries.scatterOp [[1, 2, 3], [9]] ⟨0, [1, 0, 0], 1⟩ [1] [7]).2.ref []
        = scatterList (([[1, 2, 3], [9]] : Heap).getD 0 []) [1] [7] ∧
      (PolarsSeries.scatterOp [[1, 2, 3], [9]] ⟨0, [1, 0, 0], 1⟩ [1] [7]).2.backendVersion
          = [1, 0, 0] ∧
      (PolarsSeries.scatterOp [[1, 2, 3], [9]] ⟨0, [1, 0, 0], 1⟩ [1] [7]).2.version = 1) :=
  ⟨by decide,
   scatter_leaves_receiver_unchanged [[1, 2, 3], [9]] ⟨0, [1, 0, 0], 1⟩ [1] [7]
     (by decide)⟩

end Narwhals
